import Mathlib

/-!
Shallow embedding of `src/capstone/cite/views.py`: the quota-gated access
control and redaction pipeline of the `citation` view, the `locked_session`
context manager, the `case_pdf` wrapper and the `set_cookie` view.

Machine conventions:
* timestamps (`time.time()`) are modelled as integers counting seconds;
* the quota counter stored in the session dict is modelled as an `Int`
  (the code never forces it to be a `Nat`);
* text is modelled as `String`, and `re.sub` with the literal patterns the
  claims are about is modelled as replacement of every non-overlapping
  occurrence, scanning left to right, exactly as `re.sub` behaves on
  patterns without regex metacharacters.
-/

set_option autoImplicit false
set_option maxRecDepth 8192

namespace Capstone

/-! ## Session / quota model (`citation`, lines 202-218) -/

/-- The two serializer classes the quota logic chooses between:
`serializers.CaseDocumentSerializerWithCasebody` (the credential-checking
path) and `serializers.NoLoginCaseDocumentSerializer` (the unmetered
restricted path). -/
inductive Serializer where
  | CaseDocumentSerializerWithCasebody
  | NoLoginCaseDocumentSerializer
  deriving DecidableEq, Repr

/-- The quota entry the view keeps in the Django session dict:
`session['case_allowance_remaining']` and
`session['case_allowance_last_updated']`. -/
structure QuotaSession where
  case_allowance_remaining : Int
  case_allowance_last_updated : Int
  deriving DecidableEq, Repr

/-- Seconds in a day, the literal `60*60*24` of the reset check. -/
def daySeconds : Int := 60 * 60 * 24

/-- The body of the `with locked_session(request) as session:` block in
`citation` (lines 205-218), run once the exclusive lock is held:

    cases_remaining = session['case_allowance_remaining']
    if session['case_allowance_last_updated'] < time.time() - 60*60*24:
        cases_remaining = settings.API_CASE_DAILY_ALLOWANCE
        session['case_allowance_last_updated'] = time.time()
    if cases_remaining > 0:
        session['case_allowance_remaining'] = cases_remaining - 1
        serializer = serializers.NoLoginCaseDocumentSerializer
    else:
        serializer = serializers.CaseDocumentSerializerWithCasebody

Returns the chosen serializer together with the updated session entry. -/
def quotaCheck (allowance now : Int) (s : QuotaSession) : Serializer × QuotaSession :=
  let cases_remaining := s.case_allowance_remaining
  let (cases_remaining, s) :=
    if s.case_allowance_last_updated < now - daySeconds then
      (allowance, { s with case_allowance_last_updated := now })
    else
      (cases_remaining, s)
  if cases_remaining > 0 then
    (Serializer.NoLoginCaseDocumentSerializer,
      { s with case_allowance_remaining := cases_remaining - 1 })
  else
    (Serializer.CaseDocumentSerializerWithCasebody, s)

/-- `k` requests for the same session, each executing the locked
check-and-decrement block atomically (the `select_for_update` row lock in
`locked_session` serializes them); returns the serializer each request got,
in execution order, and the final session state. -/
def runQuota (allowance now : Int) : Nat → QuotaSession → List Serializer × QuotaSession
  | 0, s => ([], s)
  | Nat.succ k, s =>
    ((quotaCheck allowance now s).1 ::
        (runQuota allowance now k (quotaCheck allowance now s).2).1,
      (runQuota allowance now k (quotaCheck allowance now s).2).2)

/-- How many of the serialized requests were granted the unmetered
(`NoLoginCaseDocumentSerializer`) path. -/
def grantedCount (l : List Serializer) : Nat :=
  (l.filter (fun r => r = Serializer.NoLoginCaseDocumentSerializer)).length

/-! ## `locked_session` (lines 35-53) -/

/-- What the database session store holds for the request's session key at
the moment `locked_session` takes the `select_for_update` lock:
* `absent`: no row with this key and a future `expire_date`
  (`session.model.DoesNotExist`);
* `corrupt`: the row exists but `session.decode` fails
  (`SuspiciousOperation`);
* `payload d`: the row decodes to a dict, which either carries the two
  quota keys (`some d`) or lacks them (`none`). -/
inductive SessionStore where
  | absent
  | corrupt
  | payload (d : Option QuotaSession)
  deriving DecidableEq, Repr

/-- The `temp_session` value `locked_session` yields to its body: the
decoded dict on success, and the empty dict `{}` when the row is missing
or its payload is unreadable (the `except (DoesNotExist, SuspiciousOperation)`
branch).  `none` stands for a dict without the quota keys. -/
def locked_session_load : SessionStore → Option QuotaSession
  | SessionStore.absent => none
  | SessionStore.corrupt => none
  | SessionStore.payload d => d

/-- Result of running the quota branch of `citation` (lines 202-218) against
the reloaded session: either a serializer plus the updated quota entry, or
the `KeyError` raised by `session['case_allowance_remaining']` when the
reloaded dict lacks the key. -/
inductive QuotaOutcome where
  | ok (ser : Serializer) (s : QuotaSession)
  | keyError
  deriving DecidableEq, Repr

/-- The quota branch of `citation`: reload the session under the lock via
`locked_session`, then read `session['case_allowance_remaining']` and run
the check-and-decrement.  A reloaded dict without the quota keys makes the
subscript raise `KeyError`. -/
def lockedQuotaCheck (allowance now : Int) (store : SessionStore) : QuotaOutcome :=
  match locked_session_load store with
  | none => QuotaOutcome.keyError
  | some s =>
    QuotaOutcome.ok (quotaCheck allowance now s).1 (quotaCheck allowance now s).2

/-! ## Access-tier dispatch in `citation` (lines 197-228) -/

/-- The inputs the `if`/`elif` chain of `citation` inspects. -/
structure CiteRequest where
  /-- `case.jurisdiction.whitelisted` -/
  whitelisted : Bool
  /-- `request.user.is_authenticated` -/
  is_authenticated : Bool
  /-- the quota entry of the in-memory `request.session`; `isSome` is the
  test `'case_allowance_remaining' in request.session` -/
  session : Option QuotaSession
  /-- `request.COOKIES.get('not_a_bot', 'no') == 'yes'` -/
  not_a_bot : Bool
  /-- `helpers.is_google_bot(request)` -/
  is_google_bot : Bool
  /-- what the database store holds when `locked_session` reloads -/
  stored : SessionStore
  /-- `request.get_full_path()` -/
  full_path : String
  deriving Repr

/-- How the access-control part of `citation` ends. -/
inductive CiteOutcome where
  | serve (ser : Serializer)
  | redirect (url : String)
  | keyError
  deriving DecidableEq, Repr

/-- `helpers.reverse('set_cookie', host='cite')`, an external URL reversal,
modelled as an opaque base path plus the query string produced by
`urlencode({'next': request.get_full_path()})`. -/
def set_cookie_redirect_url (full_path : String) : String :=
  "/set_cookie/?next=" ++ full_path

/-- The dispatch chain of `citation` (lines 197-228):

    if case.jurisdiction.whitelisted or request.user.is_authenticated: ...
    elif 'case_allowance_remaining' in request.session and request.COOKIES.get('not_a_bot', 'no') == 'yes':
        with locked_session(request) as session: ...
    elif helpers.is_google_bot(request): ...
    else:
        request.session['case_allowance_remaining'] = settings.API_CASE_DAILY_ALLOWANCE
        request.session['case_allowance_last_updated'] = time.time()
        return HttpResponseRedirect(... set_cookie ... next=request.get_full_path())

Returns the outcome together with the quota entry of `request.session`
after the branch ran (the quota branch persists the locked result; the
fallback branch overwrites the entry; the other branches leave it alone). -/
def citationAccess (allowance now : Int) (r : CiteRequest) :
    CiteOutcome × Option QuotaSession :=
  if r.whitelisted || r.is_authenticated then
    (CiteOutcome.serve Serializer.CaseDocumentSerializerWithCasebody, r.session)
  else if r.session.isSome && r.not_a_bot then
    match lockedQuotaCheck allowance now r.stored with
    | QuotaOutcome.ok ser s => (CiteOutcome.serve ser, some s)
    | QuotaOutcome.keyError => (CiteOutcome.keyError, r.session)
  else if r.is_google_bot then
    (CiteOutcome.serve Serializer.NoLoginCaseDocumentSerializer, r.session)
  else
    (CiteOutcome.redirect (set_cookie_redirect_url r.full_path),
      some ⟨allowance, now⟩)

/-! ## `set_cookie` view (lines 332-359) -/

/-- How the `set_cookie` view responds. -/
inductive SetCookieOutcome where
  /-- `safe_redirect(request)`; the flag records whether a
  `not_a_bot=yes` cookie is attached to the response -/
  | redirectNext (setsCookie : Bool)
  /-- render `cite/set_cookie.html` (manual button) -/
  | renderButtonPage
  /-- render `cite/check_js.html` (automatic JS submit) -/
  | renderJsPage
  deriving DecidableEq, Repr

/-- The dispatch chain of `set_cookie`. -/
def set_cookie (is_google_bot has_allowance not_a_bot_cookie is_post
    posted_not_a_bot no_js : Bool) : SetCookieOutcome :=
  if is_google_bot then
    SetCookieOutcome.redirectNext false
  else if has_allowance && not_a_bot_cookie then
    SetCookieOutcome.redirectNext false
  else if is_post && posted_not_a_bot then
    SetCookieOutcome.redirectNext true
  else if no_js then
    SetCookieOutcome.renderButtonPage
  else
    SetCookieOutcome.renderJsPage

/-! ## Literal text substitution (`re.sub` on the claims' literal patterns) -/

/-- Replace every non-overlapping occurrence of `pat` in the text, scanning
left to right — the behaviour of `re.sub(pat, repl, text)` when `pat` has
no regex metacharacters.  The first argument is fuel, instantiated with the
text's length. -/
def replaceAllAux (pat repl : List Char) : Nat → List Char → List Char
  | 0, t => t
  | Nat.succ fuel, t =>
    match t with
    | [] => []
    | c :: rest =>
      if pat.isEmpty then
        c :: replaceAllAux pat repl fuel rest
      else if pat.isPrefixOf t then
        repl ++ replaceAllAux pat repl fuel (t.drop pat.length)
      else
        c :: replaceAllAux pat repl fuel rest

/-- `re.sub` for a literal pattern, on `List Char`. -/
def replaceAll (pat repl t : List Char) : List Char :=
  replaceAllAux pat repl t.length t

/-- `re.sub` for a literal pattern, on `String`. -/
def reSub (pat repl s : String) : String :=
  ⟨replaceAll pat.toList repl.toList s.toList⟩

/-! ## Redactions and elisions in `citation` (lines 264-302) -/

/-- The replacement markup for one body match of a redaction:
`"<span class='redacted-text' data-redaction-id='%s'>%s</span>" % (redaction_count, val)`. -/
def redaction_span (i : Nat) (val : String) : String :=
  "<span class=\x27redacted-text\x27 data-redaction-id=\x27" ++ toString i ++
    "\x27>" ++ val ++ "</span>"

/-- The name-side replacement for a redaction: `"[ %s ]" % val`. -/
def redaction_name_marker (val : String) : String :=
  "[ " ++ val ++ " ]"

/-- The `elision_span` template of line 282, instantiated as
`elision_span % (val, elision, i)`. -/
def elision_span (val elision : String) (i : Nat) : String :=
  "<span class=\x27elision-help-text\x27 style=\x27display: none\x27>hide</span>" ++
    "<span class=\x27elided-text\x27 data-elision-reason=\x27" ++ val ++
    "\x27 role=\x27button\x27 tabindex=\x270\x27 data-hidden-text=\x27" ++ elision ++
    "\x27 data-elision-id=\x27" ++ toString i ++ "\x27>...</span>"

/-- The four text fields the redaction/elision block rewrites:
`data` (the case body), `case_name_with_markup`, `serialized_data['name']`
and `serialized_data['name_abbreviation']`. -/
structure CaseText where
  data : String
  case_name_with_markup : String
  name : String
  name_abbreviation : String
  deriving DecidableEq, Repr

/-- One iteration of the redaction loop (lines 267-276) with
`redaction_count = i`: the body match becomes the styled marker, the name
and abbreviation matches become `[ val ]`.  (`redaction_count` is
incremented between the body substitution and the name substitution, but
the name replacement does not mention it.) -/
def redactStep (i : Nat) (redaction val : String) (t : CaseText) : CaseText :=
  { t with
    data := reSub redaction (redaction_span i val) t.data
    case_name_with_markup :=
      reSub redaction (redaction_name_marker val) t.case_name_with_markup
    name_abbreviation :=
      reSub redaction (redaction_name_marker val) t.name_abbreviation }

/-- The redaction loop, fold over the map entries in iteration order with
the running `redaction_count`. -/
def applyRedactionsAux : Nat → List (String × String) → CaseText → CaseText
  | _, [], t => t
  | i, (redaction, val) :: rest, t =>
    applyRedactionsAux (i + 1) rest (redactStep i redaction val t)

/-- The `if db_case.no_index_redacted:` block (lines 266-279): run the loop
from `redaction_count = 0`, then `serialized_data['name'] = case_name_with_markup`.
An empty (falsy) map skips the whole block. -/
def applyRedactions (redactions : List (String × String)) (t : CaseText) : CaseText :=
  if redactions.isEmpty then t
  else
    let t2 := applyRedactionsAux 0 redactions t
    { t2 with name := t2.case_name_with_markup }

/-- One iteration of the elision loop (lines 283-296) with
`elision_count = i` at entry: the body match becomes
`elision_span % (val, elision, i)`; then `elision_count += 1`, so the
display-name match becomes `elision_span % (val, elision, i + 1)`; the
plain `name` and `name_abbreviation` matches become a literal `"..."`. -/
def elideStep (i : Nat) (elision val : String) (t : CaseText) : CaseText :=
  { t with
    data := reSub elision (elision_span val elision i) t.data
    case_name_with_markup :=
      reSub elision (elision_span val elision (i + 1)) t.case_name_with_markup
    name := reSub elision "..." t.name
    name_abbreviation := reSub elision "..." t.name_abbreviation }

/-- The elision loop, fold over the map entries in iteration order with the
running `elision_count`. -/
def applyElisionsAux : Nat → List (String × String) → CaseText → CaseText
  | _, [], t => t
  | i, (elision, val) :: rest, t =>
    applyElisionsAux (i + 1) rest (elideStep i elision val t)

/-- The `if db_case.no_index_elided:` block (lines 283-296). -/
def applyElisions (elisions : List (String × String)) (t : CaseText) : CaseText :=
  applyElisionsAux 0 elisions t

/-- The whole redaction/elision section of `citation`: the redaction block
(lines 266-279) runs to completion before the elision block (lines 283-296)
starts. -/
def redactAndElide (redactions elisions : List (String × String))
    (t : CaseText) : CaseText :=
  applyElisions elisions (applyRedactions redactions t)

/-! ## PDF gate (`citation` lines 238-247, `case_pdf` lines 137-148) -/

/-- `can_render_pdf = db_case.volume.pdf_file and not db_case.no_index_redacted and settings.CASE_PDF_FEATURE`
(line 240); `no_index_redacted` is the redaction map, truthy iff non-empty. -/
def can_render_pdf (pdf_file : Bool) (no_index_redacted : Bool)
    (case_pdf_feature : Bool) : Bool :=
  pdf_file && !no_index_redacted && case_pdf_feature

/-- How the `if pdf:` block of `citation` (lines 241-246) responds. -/
inductive PdfOutcome where
  /-- `HttpResponse(db_case.get_pdf(), content_type="application/pdf")` -/
  | pdf
  /-- `HttpResponseRedirect(db_case.get_full_frontend_url())` -/
  | redirectFrontend
  /-- `raise Http404` -/
  | notFound
  deriving DecidableEq, Repr

/-- The `if pdf:` block:

    if serialized_data['casebody']['status'] != 'ok':
        return HttpResponseRedirect(db_case.get_full_frontend_url())
    if not can_render_pdf:
        raise Http404
    return HttpResponse(db_case.get_pdf(), ...)

`status_ok` is `serialized_data['casebody']['status'] == 'ok'`. -/
def pdfResponse (status_ok pdf_file no_index_redacted case_pdf_feature : Bool) :
    PdfOutcome :=
  if !status_ok then PdfOutcome.redirectFrontend
  else if !(can_render_pdf pdf_file no_index_redacted case_pdf_feature) then
    PdfOutcome.notFound
  else PdfOutcome.pdf

/-! ## Citation lookup and normalization (`citation` lines 170-195) -/

/-- ASCII lowercase of one character, the effect of `str.lower()` on the
ASCII slugs and cites this view handles. -/
def pyLowerChar (c : Char) : Char :=
  if c.toNat ≥ 65 ∧ c.toNat ≤ 90 then Char.ofNat (c.toNat + 32) else c

/-- Is the character kept by `re.sub(r'[^0-9a-z]', '', ...)`? -/
def isCiteChar (c : Char) : Bool :=
  (48 ≤ c.toNat && c.toNat ≤ 57) || (97 ≤ c.toNat && c.toNat ≤ 122)

/-- `re.sub(r'[^0-9a-z]', '', full_cite.lower())` (line 184). -/
def normalized_cite (s : String) : String :=
  ⟨(s.toList.map pyLowerChar).filter isCiteChar⟩

/-- `str.title()` on ASCII text: uppercase every letter that follows a
non-letter, lowercase every other letter.  The Bool argument records
whether the previous character was a letter. -/
def pyTitleAux : Bool → List Char → List Char
  | _, [] => []
  | prevAlpha, c :: rest =>
    if (65 ≤ c.toNat ∧ c.toNat ≤ 90) ∨ (97 ≤ c.toNat ∧ c.toNat ≤ 122) then
      (if prevAlpha then pyLowerChar c
        else if 97 ≤ c.toNat ∧ c.toNat ≤ 122 then Char.ofNat (c.toNat - 32)
        else c) :: pyTitleAux true rest
    else
      c :: pyTitleAux false rest

/-- `series_slug.replace('-', ' ').title()` on ASCII slugs. -/
def seriesTitle (series_slug : String) : String :=
  ⟨pyTitleAux false (series_slug.toList.map (fun c => if c = '-' then ' ' else c))⟩

/-- `full_cite = "%s %s %s" % (volume_number_slug, series_slug.replace('-', ' ').title(), page_number)`
(line 183). -/
def full_cite (volume_number_slug series_slug page_number : String) : String :=
  volume_number_slug ++ " " ++ seriesTitle series_slug ++ " " ++ page_number

/-- A case document as the citation lookup sees it: its id and the
normalized cites of its citations (`citations__normalized_cite`). -/
structure CaseDoc where
  id : Nat
  normalized_cites : List String
  deriving DecidableEq, Repr

/-- The elasticsearch
`CaseDocument.search().filter("term", citations__normalized_cite=nc)`:
every indexed case one of whose citations' `normalized_cite` equals `nc`,
in index order. -/
def searchByNormalizedCite (index : List CaseDoc) (nc : String) : List CaseDoc :=
  index.filter (fun c => c.normalized_cites.contains nc)

/-- How the citation lookup of `citation` ends. -/
inductive LookupOutcome where
  /-- fall through to `case = cases[0]` with a unique match -/
  | served (c : CaseDoc)
  /-- `render(request, 'cite/citation_failed.html', {"cases": cases, ...})` -/
  | citationFailed (found : List CaseDoc)
  deriving DecidableEq, Repr

/-- Lines 183-195: normalize the requested citation, search, and either
serve the unique match or render the `citation_failed` page listing the
cases found (`if not cases or len(cases) != 1`). -/
def resolveByCitation (index : List CaseDoc)
    (volume_number_slug series_slug page_number : String) : LookupOutcome :=
  match searchByNormalizedCite index
      (normalized_cite (full_cite volume_number_slug series_slug page_number)) with
  | [c] => LookupOutcome.served c
  | cases => LookupOutcome.citationFailed cases

theorem grantedCount_nil : grantedCount [] = 0 := rfl

theorem grantedCount_cons (r : Serializer) (l : List Serializer) :
    grantedCount (r :: l) =
      (if r = Serializer.NoLoginCaseDocumentSerializer then 1 else 0) + grantedCount l := by
  by_cases h : r = Serializer.NoLoginCaseDocumentSerializer <;>
    simp [grantedCount, List.filter_cons, h, Nat.add_comm]

theorem grantedCount_replicate_denied (n : Nat) :
    grantedCount (List.replicate n Serializer.CaseDocumentSerializerWithCasebody) = 0 := by
  induction n with
  | zero => rfl
  | succ n ih => simp [List.replicate_succ, grantedCount_cons, ih]

/-- When the 24h reset condition does not fire, `quotaCheck` is exactly the
grant-or-deny decision on the stored counter. -/
theorem quotaCheck_no_reset (allowance now : Int) (s : QuotaSession)
    (h : ¬ s.case_allowance_last_updated < now - daySeconds) :
    quotaCheck allowance now s =
      if s.case_allowance_remaining > 0 then
        (Serializer.NoLoginCaseDocumentSerializer,
          { s with case_allowance_remaining := s.case_allowance_remaining - 1 })
      else
        (Serializer.CaseDocumentSerializerWithCasebody, s) := by
  simp [quotaCheck, h]

theorem runQuota_succ (allowance now : Int) (k : Nat) (s : QuotaSession) :
    runQuota allowance now (k + 1) s =
      ((quotaCheck allowance now s).1 ::
          (runQuota allowance now k (quotaCheck allowance now s).2).1,
        (runQuota allowance now k (quotaCheck allowance now s).2).2) := rfl

/-- A no-reset check on a positive counter grants and decrements by one. -/
theorem quotaCheck_pos (allowance now M lu : Int) (hlu : ¬ lu < now - daySeconds)
    (hM : 0 < M) :
    quotaCheck allowance now ⟨M, lu⟩ =
      (Serializer.NoLoginCaseDocumentSerializer, ⟨M - 1, lu⟩) := by
  simp [quotaCheck, hlu, hM]

/-- A no-reset check on a non-positive counter denies and leaves the
session unchanged. -/
theorem quotaCheck_nonpos (allowance now M lu : Int) (hlu : ¬ lu < now - daySeconds)
    (hM : ¬ 0 < M) :
    quotaCheck allowance now ⟨M, lu⟩ =
      (Serializer.CaseDocumentSerializerWithCasebody, ⟨M, lu⟩) := by
  simp [quotaCheck, hlu, hM]

/-- Closed form for `k` serialized checks on a session whose `last_updated`
is within 24h of `now`: the first `min k remaining` are granted, the rest
denied, and the counter ends at `remaining - min k remaining`. -/
theorem runQuota_no_reset (allowance now lu : Int) (hlu : ¬ lu < now - daySeconds) :
    ∀ (k : Nat) (M : Int), 0 ≤ M →
      runQuota allowance now k ⟨M, lu⟩ =
        (List.replicate (min k M.toNat) Serializer.NoLoginCaseDocumentSerializer ++
          List.replicate (k - min k M.toNat) Serializer.CaseDocumentSerializerWithCasebody,
          ⟨M - min k M.toNat, lu⟩) := by
  intro k
  induction k with
  | zero => intro M hM; simp [runQuota]
  | succ k ih =>
    intro M hM
    by_cases hM0 : 0 < M
    · have hrec := ih (M - 1) (by omega)
      rw [runQuota_succ, quotaCheck_pos allowance now M lu hlu hM0, hrec]
      have hmin : min (k + 1) M.toNat = min k ((M - 1).toNat) + 1 := by omega
      rw [hmin, List.replicate_succ]
      refine congrArg₂ Prod.mk ?_ ?_
      · dsimp only
        rw [List.cons_append]
        have hc : k + 1 - (min k ((M - 1).toNat) + 1) = k - min k ((M - 1).toNat) := by
          omega
        rw [hc]
      · dsimp only
        rw [QuotaSession.mk.injEq]
        refine ⟨?_, rfl⟩
        push_cast
        ring
    · have hM0' : M = 0 := by omega
      subst hM0'
      rw [runQuota_succ, quotaCheck_nonpos allowance now 0 lu hlu hM0, ih 0 le_rfl]
      simp [List.replicate_succ]

/-- C1: under the serialization enforced by the per-session
`select_for_update` lock of `locked_session`, `k ≥ 2` requests for the
same session whose quota entry holds `remaining = 1` (and whose
`last_updated` is within 24h of `now`, so no reset intervenes) see exactly
one grant: the first request gets the unmetered serializer and every other
request is denied, and the counter ends at `0` — the last unit is never
double-granted. -/
theorem quota_last_unit_single_grant (allowance now lu : Int) (k : Nat)
    (hk : 2 ≤ k) (hlu : ¬ lu < now - daySeconds) :
    (runQuota allowance now k ⟨1, lu⟩).1 =
      Serializer.NoLoginCaseDocumentSerializer ::
        List.replicate (k - 1) Serializer.CaseDocumentSerializerWithCasebody ∧
    grantedCount (runQuota allowance now k ⟨1, lu⟩).1 = 1 ∧
    (runQuota allowance now k ⟨1, lu⟩).2 = ⟨0, lu⟩ := by
  have h := runQuota_no_reset allowance now lu hlu k 1 (by norm_num)
  have hmin : min k (1 : Int).toNat = 1 := by
    have : (1 : Int).toNat = 1 := rfl
    omega
  rw [hmin] at h
  have hfst : (runQuota allowance now k ⟨1, lu⟩).1 =
      Serializer.NoLoginCaseDocumentSerializer ::
        List.replicate (k - 1) Serializer.CaseDocumentSerializerWithCasebody := by
    rw [h]; simp
  refine ⟨hfst, ?_, ?_⟩
  · rw [hfst, grantedCount_cons, grantedCount_replicate_denied]
    simp
  · rw [h]; norm_num

theorem quota_last_unit_single_grant_witness :
    (runQuota 500 0 2 ⟨1, 0⟩).1 =
      Serializer.NoLoginCaseDocumentSerializer ::
        List.replicate (2 - 1) Serializer.CaseDocumentSerializerWithCasebody ∧
    grantedCount (runQuota 500 0 2 ⟨1, 0⟩).1 = 1 ∧
    (runQuota 500 0 2 ⟨1, 0⟩).2 = ⟨0, 0⟩ :=
  quota_last_unit_single_grant 500 0 0 2 (by norm_num) (by decide)

/-- C2: starting from a quota entry with `remaining = N > 0` and no daily
reset intervening, the first `N` serialized check-and-decrement calls are
all granted, each lowering `remaining` by exactly one (after `k ≤ N` calls
it is `N - k`), the `(N+1)`-th call is denied and handed the
credential-checking `CaseDocumentSerializerWithCasebody` fallback, and the
counter never drops below zero at any horizon. -/
theorem quota_exactly_N_grants (allowance now lu : Int) (N : Nat)
    (hN : 0 < N) (hlu : ¬ lu < now - daySeconds) :
    runQuota allowance now (N + 1) ⟨(N : Int), lu⟩ =
      (List.replicate N Serializer.NoLoginCaseDocumentSerializer ++
        [Serializer.CaseDocumentSerializerWithCasebody], ⟨0, lu⟩) ∧
    (∀ k : Nat, k ≤ N →
      (runQuota allowance now k ⟨(N : Int), lu⟩).2.case_allowance_remaining =
        (N : Int) - k) ∧
    (∀ k : Nat,
      0 ≤ (runQuota allowance now k ⟨(N : Int), lu⟩).2.case_allowance_remaining) := by
  have htn : ((N : Int)).toNat = N := Int.toNat_natCast N
  refine ⟨?_, ?_, ?_⟩
  · have h := runQuota_no_reset allowance now lu hlu (N + 1) (N : Int) (by positivity)
    rw [htn] at h
    have hmin : min (N + 1) N = N := by omega
    rw [hmin] at h
    rw [h]
    have hone : N + 1 - N = 1 := by omega
    rw [hone]
    norm_num
  · intro k hk
    have h := runQuota_no_reset allowance now lu hlu k (N : Int) (by positivity)
    rw [htn] at h
    have hmin : min k N = k := by omega
    rw [hmin] at h
    rw [h]
  · intro k
    have h := runQuota_no_reset allowance now lu hlu k (N : Int) (by positivity)
    rw [htn] at h
    rw [h]
    have : min k N ≤ N := by omega
    simp only []
    omega

theorem quota_exactly_N_grants_witness :
    runQuota 500 0 (3 + 1) ⟨((3 : Nat) : Int), 0⟩ =
      (List.replicate 3 Serializer.NoLoginCaseDocumentSerializer ++
        [Serializer.CaseDocumentSerializerWithCasebody], ⟨0, 0⟩) ∧
    (∀ k : Nat, k ≤ 3 →
      (runQuota 500 0 k ⟨((3 : Nat) : Int), 0⟩).2.case_allowance_remaining =
        ((3 : Nat) : Int) - k) ∧
    (∀ k : Nat,
      0 ≤ (runQuota 500 0 k ⟨((3 : Nat) : Int), 0⟩).2.case_allowance_remaining) :=
  quota_exactly_N_grants 500 0 0 3 (by norm_num) (by decide)

/-- C3 counterexample: at `now - last_updated` equal to exactly 24 hours
the code does not reset.  With `now = 86400 = daySeconds` and
`last_updated = 0`, a session holding `remaining = 2` is simply decremented
to `1` and keeps `last_updated = 0`: `remaining` is not set to the full
allowance `500` and `last_updated` is not set to `now`, refuting the claim
for timestamps exactly 24 hours in the past (the code's test is the strict
`session['case_allowance_last_updated'] < time.time() - 60*60*24`). -/
theorem quota_reset_boundary_counterexample :
    (86400 : Int) = daySeconds ∧
    quotaCheck 500 86400 ⟨2, 0⟩ =
      (Serializer.NoLoginCaseDocumentSerializer, ⟨1, 0⟩) ∧
    (quotaCheck 500 86400 ⟨2, 0⟩).2.case_allowance_remaining ≠ 500 ∧
    (quotaCheck 500 86400 ⟨2, 0⟩).2.case_allowance_last_updated ≠ 86400 := by
  decide

/-- C3 amended: for every quota check on a session whose `last_updated` is
strictly more than 24 hours in the past, `last_updated` is set to the
current time, and (whenever the configured daily allowance is positive)
the check behaves exactly as if the entry had first been reset to the full
allowance at `now` — the reset is applied at most once, before the
grant/decrement decision of that same check. -/
theorem quota_reset_strictly_after_24h (allowance now : Int) (s : QuotaSession)
    (h : s.case_allowance_last_updated < now - daySeconds) :
    (quotaCheck allowance now s).2.case_allowance_last_updated = now ∧
    (0 < allowance →
      quotaCheck allowance now s = quotaCheck allowance now ⟨allowance, now⟩) := by
  have hnn : ¬ now < now - daySeconds := by
    have : (0 : Int) < daySeconds := by norm_num [daySeconds]
    omega
  constructor
  · by_cases ha : allowance > 0 <;> simp [quotaCheck, h, ha]
  · intro ha
    rw [quotaCheck_pos allowance now allowance now hnn ha]
    simp [quotaCheck, h, ha]

theorem quota_reset_strictly_after_24h_witness :
    (quotaCheck 500 172800 ⟨3, 0⟩).2.case_allowance_last_updated = 172800 ∧
    (0 < (500 : Int) →
      quotaCheck 500 172800 ⟨3, 0⟩ = quotaCheck 500 172800 ⟨500, 172800⟩) :=
  quota_reset_strictly_after_24h 500 172800 ⟨3, 0⟩ (by decide)

/-- C4: the access tier is decided first-match-wins in exactly the order of
the `if`/`elif` chain: (1) a whitelisted case or an authenticated user gets
the full-access serializer; (2) otherwise, a session that already carries
the quota entry together with the `not_a_bot` consent cookie gets the
locked quota check, whose outcome (serializer and updated entry) is
persisted; (3) otherwise a recognized crawler gets the restricted-safe
serializer with the session untouched (no quota consumed); (4) otherwise a
fresh full quota entry is written and the client is redirected to the
consent-cookie flow carrying the originally requested path as `next`. -/
theorem access_tier_decision_order (allowance now : Int) (r : CiteRequest) :
    ((r.whitelisted = true ∨ r.is_authenticated = true) →
      citationAccess allowance now r =
        (CiteOutcome.serve Serializer.CaseDocumentSerializerWithCasebody,
          r.session)) ∧
    (r.whitelisted = false → r.is_authenticated = false →
      r.session.isSome = true → r.not_a_bot = true →
      citationAccess allowance now r =
        (match lockedQuotaCheck allowance now r.stored with
          | QuotaOutcome.ok ser s => (CiteOutcome.serve ser, some s)
          | QuotaOutcome.keyError => (CiteOutcome.keyError, r.session))) ∧
    (r.whitelisted = false → r.is_authenticated = false →
      (r.session.isSome = false ∨ r.not_a_bot = false) →
      r.is_google_bot = true →
      citationAccess allowance now r =
        (CiteOutcome.serve Serializer.NoLoginCaseDocumentSerializer,
          r.session)) ∧
    (r.whitelisted = false → r.is_authenticated = false →
      (r.session.isSome = false ∨ r.not_a_bot = false) →
      r.is_google_bot = false →
      citationAccess allowance now r =
        (CiteOutcome.redirect (set_cookie_redirect_url r.full_path),
          some ⟨allowance, now⟩)) := by
  refine ⟨?_, ?_, ?_, ?_⟩
  · rintro (h | h) <;> simp [citationAccess, h]
  · intro h1 h2 h3 h4
    simp [citationAccess, h1, h2, h3, h4]
  · rintro h1 h2 (h3 | h3) h4 <;> simp [citationAccess, h1, h2, h3, h4]
  · rintro h1 h2 (h3 | h3) h4 <;> simp [citationAccess, h1, h2, h3, h4]

theorem access_tier_decision_order_witness :
    citationAccess 500 0 ⟨true, false, none, false, false, SessionStore.absent, "/a"⟩ =
      (CiteOutcome.serve Serializer.CaseDocumentSerializerWithCasebody, none) ∧
    citationAccess 500 0 ⟨false, false, none, false, true, SessionStore.absent, "/a"⟩ =
      (CiteOutcome.serve Serializer.NoLoginCaseDocumentSerializer, none) ∧
    citationAccess 500 0 ⟨false, false, none, false, false, SessionStore.absent, "/a"⟩ =
      (CiteOutcome.redirect (set_cookie_redirect_url "/a"), some ⟨500, 0⟩) ∧
    citationAccess 500 0
        ⟨false, false, some ⟨5, 7⟩, true, false, SessionStore.payload (some ⟨5, 7⟩), "/a"⟩ =
      (CiteOutcome.serve Serializer.NoLoginCaseDocumentSerializer, some ⟨4, 7⟩) := by
  refine ⟨(access_tier_decision_order 500 0 _).1 (Or.inl rfl),
    (access_tier_decision_order 500 0 _).2.2.1 rfl rfl (Or.inl rfl) rfl,
    (access_tier_decision_order 500 0 _).2.2.2 rfl rfl (Or.inl rfl) rfl, ?_⟩
  have h := (access_tier_decision_order 500 0
    ⟨false, false, some ⟨5, 7⟩, true, false,
      SessionStore.payload (some ⟨5, 7⟩), "/a"⟩).2.1 rfl rfl rfl rfl
  rw [h]
  decide

/-- C7 counterexample: when the stored payload is corrupted, the
`locked_session` loader does recover it as the fresh empty dict, but the
quota branch then raises `KeyError` on `session['case_allowance_remaining']`
instead of completing the request. -/
theorem session_corrupt_keyerror_counterexample :
    locked_session_load SessionStore.corrupt = none ∧
    lockedQuotaCheck 500 0 SessionStore.corrupt = QuotaOutcome.keyError := by
  decide

/-- C7 amended: a missing, expired or corrupted stored payload is recovered
by `locked_session` as a fresh empty session dict — the decode failure
itself is never propagated — but the quota branch then reads
`case_allowance_remaining` out of that empty dict and raises `KeyError`, so
the quota check completes without a hard error exactly when the reloaded
payload still carries the quota entry. -/
theorem session_corrupt_recovery (allowance now : Int) :
    locked_session_load SessionStore.corrupt = none ∧
    locked_session_load SessionStore.absent = none ∧
    lockedQuotaCheck allowance now SessionStore.corrupt = QuotaOutcome.keyError ∧
    lockedQuotaCheck allowance now SessionStore.absent = QuotaOutcome.keyError ∧
    (∀ s : QuotaSession,
      lockedQuotaCheck allowance now (SessionStore.payload (some s)) =
        QuotaOutcome.ok (quotaCheck allowance now s).1 (quotaCheck allowance now s).2) :=
  ⟨rfl, rfl, rfl, rfl, fun _ => rfl⟩

/-- C8 counterexample: a PDF request for a case with `no_index_redacted`
set whose casebody status is not `'ok'` (a restricted or denied body) is
answered with a redirect to the case's frontend URL, not with NotFound —
the status check runs before the `can_render_pdf` check. -/
theorem pdf_redirect_counterexample :
    pdfResponse false true true true = PdfOutcome.redirectFrontend ∧
    pdfResponse false true true true ≠ PdfOutcome.notFound := by
  decide

/-- C8 amended: the case PDF is returned exactly when the casebody status
is `'ok'`, the volume has an attached PDF source, the case is not
index-redacted, and the PDF feature flag is enabled; with an `'ok'` body
every case with `no_index_redacted` set yields NotFound regardless of the
feature flag; and a restricted or denied body (status not `'ok'`) never
yields a PDF — it is redirected to the case's frontend URL instead. -/
theorem pdf_gate (status_ok pdf_file no_index_redacted feature : Bool) :
    (pdfResponse status_ok pdf_file no_index_redacted feature = PdfOutcome.pdf ↔
      status_ok = true ∧ pdf_file = true ∧ no_index_redacted = false ∧
        feature = true) ∧
    (no_index_redacted = true → status_ok = true →
      pdfResponse status_ok pdf_file no_index_redacted feature =
        PdfOutcome.notFound) ∧
    (status_ok = false →
      pdfResponse status_ok pdf_file no_index_redacted feature =
        PdfOutcome.redirectFrontend) := by
  revert status_ok pdf_file no_index_redacted feature
  decide

theorem pdf_gate_witness :
    pdfResponse true true true true = PdfOutcome.notFound ∧
    pdfResponse false false false false = PdfOutcome.redirectFrontend ∧
    pdfResponse true true false true = PdfOutcome.pdf :=
  ⟨(pdf_gate true true true true).2.1 rfl rfl,
    (pdf_gate false false false false).2.2 rfl,
    (pdf_gate true true false true).1.mpr ⟨rfl, rfl, rfl, rfl⟩⟩

/-- C10: whenever the final fallback branch is taken (case not
whitelisted, principal not authenticated, the session lacks the quota
entry or the request lacks the `not_a_bot` cookie, and the requester is
not a recognized crawler), the view unconditionally writes a fresh entry
`remaining = full allowance, last_updated = now` into the session —
overwriting whatever entry was there, including an exhausted one — and
redirects to the consent flow carrying the original path; and in that
post-redirect state a POST of `not_a_bot=yes` to `set_cookie` attaches the
consent cookie and redirects back, after which the client's quota stands
at the full allowance. -/
theorem fallback_restores_full_quota (allowance now : Int) (r : CiteRequest)
    (hwl : r.whitelisted = false) (hauth : r.is_authenticated = false)
    (hnocookie : r.session.isSome = false ∨ r.not_a_bot = false)
    (hbot : r.is_google_bot = false) :
    citationAccess allowance now r =
      (CiteOutcome.redirect (set_cookie_redirect_url r.full_path),
        some ⟨allowance, now⟩) ∧
    (∀ no_js : Bool,
      set_cookie false true false true true no_js =
        SetCookieOutcome.redirectNext true) := by
  constructor
  · rcases hnocookie with h3 | h3 <;> simp [citationAccess, hwl, hauth, h3, hbot]
  · intro no_js
    rfl

theorem fallback_restores_full_quota_witness :
    citationAccess 500 999
        ⟨false, false, some ⟨0, 5⟩, false, false,
          SessionStore.payload (some ⟨0, 5⟩), "/b"⟩ =
      (CiteOutcome.redirect (set_cookie_redirect_url "/b"), some ⟨500, 999⟩) ∧
    (∀ no_js : Bool,
      set_cookie false true false true true no_js =
        SetCookieOutcome.redirectNext true) :=
  fallback_restores_full_quota 500 999
    ⟨false, false, some ⟨0, 5⟩, false, false,
      SessionStore.payload (some ⟨0, 5⟩), "/b"⟩
    rfl rfl (Or.inr rfl) rfl

/-- The redaction loop visits the map entries in order, pairing entry `j`
with the running counter `n + j`. -/
theorem applyRedactionsAux_enumFrom (redactions : List (String × String)) :
    ∀ (n : Nat) (t : CaseText),
      applyRedactionsAux n redactions t =
        (List.enumFrom n redactions).foldl
          (fun u iv => redactStep iv.1 iv.2.1 iv.2.2 u) t := by
  induction redactions with
  | nil => intro n t; rfl
  | cons hd tl ih =>
    intro n t
    cases hd with
    | mk redaction val =>
      simp only [applyRedactionsAux, List.enumFrom_cons, List.foldl_cons]
      exact ih (n + 1) _

/-- The elision loop visits the map entries in order, pairing entry `j`
with the running counter `n + j`. -/
theorem applyElisionsAux_enumFrom (elisions : List (String × String)) :
    ∀ (n : Nat) (t : CaseText),
      applyElisionsAux n elisions t =
        (List.enumFrom n elisions).foldl
          (fun u iv => elideStep iv.1 iv.2.1 iv.2.2 u) t := by
  induction elisions with
  | nil => intro n t; rfl
  | cons hd tl ih =>
    intro n t
    cases hd with
    | mk elision val =>
      simp only [applyElisionsAux, List.enumFrom_cons, List.foldl_cons]
      exact ih (n + 1) _

/-- C6: the redaction block runs to completion before the elision block
starts; the redaction rules are applied in map order, rule `i` carrying the
zero-based counter `i`, each substitution rewriting every occurrence in the
current (already partially rewritten) text; a body match of rule `i`
becomes the styled marker with `data-redaction-id='i'` and the literal
replacement value, while name and abbreviation matches become `[ value ]`;
on the spec's vector, body `"Smith v. Jones"` with map
`{"Jones": "REDACTED"}` yields the id-0 marker in the body and name
`"Smith v. [ REDACTED ]"`, and a pattern with two occurrences is replaced
at both. -/
theorem redaction_pipeline (redactions elisions : List (String × String))
    (t : CaseText) (i : Nat) (redaction val : String) :
    redactAndElide redactions elisions t =
      applyElisions elisions (applyRedactions redactions t) ∧
    applyRedactionsAux 0 redactions t =
      redactions.enum.foldl (fun u iv => redactStep iv.1 iv.2.1 iv.2.2 u) t ∧
    (redactStep i redaction val t).data =
      reSub redaction (redaction_span i val) t.data ∧
    (redactStep i redaction val t).case_name_with_markup =
      reSub redaction (redaction_name_marker val) t.case_name_with_markup ∧
    (redactStep i redaction val t).name_abbreviation =
      reSub redaction (redaction_name_marker val) t.name_abbreviation ∧
    applyRedactions [("Jones", "REDACTED")]
        ⟨"Smith v. Jones", "Smith v. Jones", "Smith v. Jones",
          "Smith v. Jones"⟩ =
      ⟨"Smith v. " ++ redaction_span 0 "REDACTED", "Smith v. [ REDACTED ]",
        "Smith v. [ REDACTED ]", "Smith v. [ REDACTED ]"⟩ ∧
    (applyRedactions [("a", "R")] ⟨"a a", "", "", ""⟩).data =
      redaction_span 0 "R" ++ " " ++ redaction_span 0 "R" :=
  ⟨rfl, applyRedactionsAux_enumFrom redactions 0 t, rfl, rfl, rfl,
    by decide, by decide⟩

/-- C5 counterexample: with the elision map
`{"confidential": "secret-value"}`, the body placeholder carries
`data-elision-id='0'` but the display-name placeholder carries
`data-elision-id='1'` — because `elision_count += 1` runs between the body
substitution and the name substitution, the display name is not given the
same placeholder markup as the body. -/
theorem elision_name_id_counterexample :
    (applyElisions [("confidential", "secret-value")]
        ⟨"This is confidential.", "confidential v. Jones",
          "confidential v. Jones", "conf. v. Jones"⟩).data =
      "This is " ++ elision_span "secret-value" "confidential" 0 ++ "." ∧
    (applyElisions [("confidential", "secret-value")]
        ⟨"This is confidential.", "confidential v. Jones",
          "confidential v. Jones", "conf. v. Jones"⟩).case_name_with_markup =
      elision_span "secret-value" "confidential" 1 ++ " v. Jones" ∧
    elision_span "secret-value" "confidential" 1 ≠
      elision_span "secret-value" "confidential" 0 := by
  decide

/-- C5 amended: elision rule `i` (zero-based, in map order) replaces each
body match by the focusable placeholder carrying the elided text in
`data-hidden-text`, the id `i` and the "hide" affordance; each display-name
match is replaced by the same placeholder template but carrying id `i + 1`
(the counter is incremented between the body and name substitutions); and
each match in the plain indexable name and name abbreviation is replaced by
a literal `...` with no markup. -/
theorem elision_markup (elisions : List (String × String)) (t : CaseText)
    (i : Nat) (elision val : String) :
    applyElisions elisions t =
      elisions.enum.foldl (fun u iv => elideStep iv.1 iv.2.1 iv.2.2 u) t ∧
    (elideStep i elision val t).data =
      reSub elision (elision_span val elision i) t.data ∧
    (elideStep i elision val t).case_name_with_markup =
      reSub elision (elision_span val elision (i + 1)) t.case_name_with_markup ∧
    (elideStep i elision val t).name = reSub elision "..." t.name ∧
    (elideStep i elision val t).name_abbreviation =
      reSub elision "..." t.name_abbreviation ∧
    (applyElisions [("confidential", "secret-value")]
        ⟨"This is confidential.", "confidential v. Jones",
          "confidential v. Jones", "conf. v. Jones"⟩).data =
      "This is " ++ elision_span "secret-value" "confidential" 0 ++ "." ∧
    (applyElisions [("confidential", "secret-value")]
        ⟨"This is confidential.", "confidential v. Jones",
          "confidential v. Jones", "conf. v. Jones"⟩).name = "... v. Jones" :=
  ⟨applyElisionsAux_enumFrom elisions 0 t, rfl, rfl, rfl, rfl,
    by decide, by decide⟩

/-- C9: the requested citation is normalized by lowercasing and stripping
every character outside `[0-9a-z]` (so the normalized form consists of such
characters only); when exactly one indexed case's normalized citation set
contains the normalized cite, that case is served and its stored set does
contain the query; when the match count is zero or more than one, the view
renders the `citation_failed` page listing exactly the candidates found,
rather than raising an error. -/
theorem citation_lookup_dispatch (index : List CaseDoc)
    (volume_number_slug series_slug page_number : String) :
    ((normalized_cite
        (full_cite volume_number_slug series_slug page_number)).data.all
          isCiteChar = true) ∧
    (∀ c : CaseDoc,
      searchByNormalizedCite index
          (normalized_cite (full_cite volume_number_slug series_slug page_number)) =
        [c] →
      resolveByCitation index volume_number_slug series_slug page_number =
          LookupOutcome.served c ∧
        c.normalized_cites.contains
          (normalized_cite (full_cite volume_number_slug series_slug page_number)) =
            true) ∧
    ((searchByNormalizedCite index
        (normalized_cite (full_cite volume_number_slug series_slug page_number))).length ≠ 1 →
      resolveByCitation index volume_number_slug series_slug page_number =
        LookupOutcome.citationFailed
          (searchByNormalizedCite index
            (normalized_cite (full_cite volume_number_slug series_slug page_number)))) := by
  refine ⟨?_, ?_, ?_⟩
  · rw [List.all_eq_true]
    intro x hx
    have : x ∈ List.filter isCiteChar
        ((full_cite volume_number_slug series_slug page_number).toList.map pyLowerChar) := hx
    exact (List.mem_filter.mp this).2
  · intro c h
    constructor
    · unfold resolveByCitation
      rw [h]
    · have hc : c ∈ searchByNormalizedCite index
          (normalized_cite (full_cite volume_number_slug series_slug page_number)) := by
        rw [h]; exact List.mem_singleton_self c
      exact (List.mem_filter.mp hc).2
  · intro hlen
    unfold resolveByCitation
    rcases hcs : searchByNormalizedCite index
        (normalized_cite (full_cite volume_number_slug series_slug page_number)) with
      _ | ⟨c, _ | ⟨d, tl⟩⟩
    · rfl
    · exact absurd (by rw [hcs]; rfl) hlen
    · rfl

theorem citation_lookup_dispatch_witness :
    normalized_cite (full_cite "1" "ill-2d" "1") = "1ill2d1" ∧
    resolveByCitation [⟨1, ["1ill2d1"]⟩, ⟨2, ["2mass100"]⟩] "1" "ill-2d" "1" =
      LookupOutcome.served ⟨1, ["1ill2d1"]⟩ ∧
    resolveByCitation [⟨2, ["2mass100"]⟩] "1" "ill-2d" "1" =
      LookupOutcome.citationFailed [] := by
  refine ⟨by decide, ?_, ?_⟩
  · exact ((citation_lookup_dispatch [⟨1, ["1ill2d1"]⟩, ⟨2, ["2mass100"]⟩]
      "1" "ill-2d" "1").2.1 ⟨1, ["1ill2d1"]⟩ (by decide)).1
  · have h := (citation_lookup_dispatch [⟨2, ["2mass100"]⟩]
      "1" "ill-2d" "1").2.2 (by decide)
    rw [h]
    decide

end Capstone
